import Mathlib

/-!
Verification of the Kheng PhysioCare backend (server.js) invoice and
dashboard logic.  The JavaScript request handlers are shallowly embedded:
JSON numbers are rationals, fallible values are modelled by small inductive
types, and the database is explicit state threaded through each handler.
-/

namespace PhysioCare

/-- A value sitting at a numeric position of a JSON request body, as seen by
the handlers through parseFloat: a finite number (a JSON number or a numeric
string), a present but non-parseable value (parseFloat yields NaN, or an
infinite value), or null/undefined. -/
inductive NumVal
  | num (q : ℚ)
  | nonNum
  | nullish
deriving DecidableEq, Repr

/-- toNumber from server.js (lines 295-298 and 682-685): parseFloat the
value and return it when finite, else 0.  null and undefined parse to NaN,
hence 0. -/
def toNumber : NumVal → ℚ
  | .num q => q
  | .nonNum => 0
  | .nullish => 0

/-- JavaScript nullish coalescing a ?? b at a numeric position. -/
def nullishOr (v d : NumVal) : NumVal :=
  match v with
  | .nullish => d
  | x => x

/-- A value sitting at a string position of a JSON request body. -/
inductive StrVal
  | str (s : String)
  | nullish
deriving DecidableEq, Repr

/-- JavaScript a || d at a string position: the empty string, null and
undefined are falsy, so d is used for them. -/
def strOr (v : StrVal) (d : String) : String :=
  match v with
  | .str s => if s = "" then d else s
  | .nullish => d

/-- A raw line item of an invoice request body (fields read by the
handlers: service_name, service, quantity, unit_price, price). -/
structure RawItem where
  service_name : StrVal
  service : StrVal
  quantity : NumVal
  unit_price : NumVal
  price : NumVal
deriving DecidableEq, Repr

/-- A normalized invoice line item (also the shape of an invoice_items row
minus the invoice reference). -/
structure InvoiceItem where
  service_name : String
  quantity : ℚ
  unit_price : ℚ
deriving DecidableEq, Repr

/-- Normalization of one raw item at index idx (server.js lines 301-309 and
687-691): quantity defaults to 1, unit price to item.price then 0, and the
label to service then "Item (idx+1)". -/
def normalizeItem (idx : Nat) (item : RawItem) : InvoiceItem :=
  { service_name := strOr item.service_name
      (strOr item.service ("Item " ++ toString (idx + 1)))
    quantity := toNumber (nullishOr item.quantity (.num 1))
    unit_price := toNumber (nullishOr item.unit_price (nullishOr item.price (.num 0))) }

/-- normalizedItems (server.js lines 301-310 and 687-692): map each raw item
through normalizeItem, then keep items with a truthy service_name and a
positive quantity. -/
def normalizedItems (items : List RawItem) : List InvoiceItem :=
  ((items.enum).map (fun p => normalizeItem p.1 p.2)).filter
    (fun i => i.service_name != "" && decide (0 < i.quantity))

/-- subtotalFromItems (server.js lines 312 and 694): reduce over the
normalized items, accumulating quantity times unit price from 0. -/
def subtotalFromItems (items : List InvoiceItem) : ℚ :=
  items.foldl (fun sum it => sum + it.quantity * it.unit_price) 0

/-- The fields of an invoice request body read by the invoice computation
and by the invoice-row write (POST /api/invoices and PATCH
/api/invoices/:id).  patientId, status and diagnostic are wrapped in Option:
none stands for an absent (undefined) field, which JSON-serialisation drops
from the database payload. -/
structure InvoiceRequest where
  patientId : Option Nat
  status : Option String
  diagnostic : Option String
  items : List RawItem
  discount_type : StrVal
  discount_value : NumVal
  total_amount : NumVal
  subtotal : NumVal
deriving DecidableEq, Repr

/-- The computed monetary fields stored on an invoice row. -/
structure InvoiceFields where
  subtotal : ℚ
  discount_type : String
  discount_value : ℚ
  discount_amount : ℚ
  total_amount : ℚ
deriving DecidableEq, Repr

/-- The invoice computation shared verbatim by POST /api/invoices
(server.js lines 301-324) and PATCH /api/invoices/:id (lines 687-704):
subtotal from the items when their sum is positive else from the body,
discount by type with a clamp to the subtotal, and total preferring a
positive caller-supplied total over max 0 (subtotal - discount). -/
def calcInvoice (req : InvoiceRequest) : InvoiceFields :=
  let nitems := normalizedItems req.items
  let sFromItems := subtotalFromItems nitems
  let subtotal := if 0 < sFromItems then sFromItems else toNumber req.subtotal
  let dType := strOr req.discount_type "none"
  let dValue := toNumber req.discount_value
  let dAmount0 : ℚ :=
    if dType = "percent" then subtotal * (dValue / 100)
    else if dType = "flat" then dValue
    else 0
  let dAmount := if subtotal < dAmount0 then subtotal else dAmount0
  let totalFromBody := toNumber req.total_amount
  let computedTotal := max 0 (subtotal - dAmount)
  let total_amount := if 0 < totalFromBody then totalFromBody else computedTotal
  { subtotal := subtotal
    discount_type := dType
    discount_value := dValue
    discount_amount := dAmount
    total_amount := total_amount }

/-- The normalization as claim C2 words it (a spec-side reading, for
comparison with normalizedItems): drop exactly the raw items whose service
label (service_name, else service) is empty or missing, or whose quantity
is non-positive; keep the rest in normalized form. -/
def claimedNormalizedItems (items : List RawItem) : List InvoiceItem :=
  ((items.enum).filter (fun p =>
      (strOr p.2.service_name (strOr p.2.service "") != "")
        && decide (0 < toNumber (nullishOr p.2.quantity (.num 1))))).map
    (fun p => normalizeItem p.1 p.2)

/-- A request with a single item of negative unit price and a
caller-supplied subtotal of 7, exercising the subtotal fallback. -/
def reqNegSum : InvoiceRequest :=
  { patientId := none, status := none, diagnostic := none
    items := [⟨.nullish, .nullish, .num 1, .num (-5), .nullish⟩]
    discount_type := .nullish, discount_value := .nullish
    total_amount := .nullish, subtotal := .num 7 }

/-- A raw item whose service label is empty and whose quantity is 1. -/
def rawEmptyLabel : RawItem := ⟨.str "", .nullish, .num 1, .num 5, .nullish⟩

/-- The C3 scenario request: items = [(quantity 2, unit price 10)],
discount_type percent, discount_value 10, no caller total. -/
def reqScenario : InvoiceRequest :=
  { patientId := none, status := none, diagnostic := none
    items := [⟨.nullish, .nullish, .num 2, .num 10, .nullish⟩]
    discount_type := .str "percent", discount_value := .num 10
    total_amount := .nullish, subtotal := .nullish }

/-- Helper: strOr never returns the empty string when its default is
non-empty. -/
theorem strOr_ne_empty (v : StrVal) (d : String) (hd : d ≠ "") :
    strOr v d ≠ "" := by
  cases v with
  | nullish => simpa [strOr] using hd
  | str s =>
    by_cases hs : s = "" <;> simp [strOr, hs, hd]

/-- Helper: the default label "Item (idx+1)" is never empty. -/
theorem item_default_label_ne_empty (idx : Nat) :
    ("Item " ++ toString (idx + 1)) ≠ "" := by
  intro h
  have h5 : ("Item " ++ toString (idx + 1)).length = 0 := by rw [h]; rfl
  rw [String.length_append] at h5
  have h6 : ("Item " : String).length = 5 := rfl
  omega

/-- Helper: every normalized item carries a non-empty service label. -/
theorem normalizeItem_label_ne_empty (idx : Nat) (item : RawItem) :
    (normalizeItem idx item).service_name ≠ "" := by
  exact strOr_ne_empty _ _ (strOr_ne_empty _ _ (item_default_label_ne_empty idx))

/-- C1 counterexample: with items = [(quantity 1, unit price -5)] and a
caller-supplied subtotal of 7, the computed item sum is -5 (non-zero), yet
the stored subtotal is 7, not the sum: the fallback fires for every
non-positive sum, not only for a zero sum. -/
theorem subtotal_negative_sum_fallback_cex :
    subtotalFromItems (normalizedItems reqNegSum.items) = -5 ∧
    (calcInvoice reqNegSum).subtotal = 7 := by
  have hn : normalizedItems reqNegSum.items = [⟨"Item 1", 1, -5⟩] := rfl
  have hs : subtotalFromItems (normalizedItems reqNegSum.items) = -5 := by
    rw [hn]; norm_num [subtotalFromItems, List.foldl]
  refine ⟨hs, ?_⟩
  have hdef : (calcInvoice reqNegSum).subtotal =
      if 0 < subtotalFromItems (normalizedItems reqNegSum.items)
      then subtotalFromItems (normalizedItems reqNegSum.items)
      else toNumber reqNegSum.subtotal := rfl
  rw [hdef, hs, if_neg (by norm_num : ¬ (0:ℚ) < (-5:ℚ))]
  rfl

/-- C1 (amended): for every invoice create or update request, the stored
subtotal equals the sum of quantity times unit price over the normalized
items whenever that sum is positive, and otherwise (sum ≤ 0) equals the
numeric value of the caller-supplied subtotal field. -/
theorem invoice_subtotal_formula (req : InvoiceRequest) :
    (calcInvoice req).subtotal =
      if 0 < subtotalFromItems (normalizedItems req.items)
      then subtotalFromItems (normalizedItems req.items)
      else toNumber req.subtotal := rfl

/-- C2 counterexample: a raw item with an empty service label and quantity 1
is claimed to be dropped, but normalization keeps it under the default label
"Item 1" and it contributes 5 to the subtotal. -/
theorem normalization_empty_label_kept_cex :
    normalizedItems [rawEmptyLabel] = [⟨"Item 1", 1, 5⟩] ∧
    claimedNormalizedItems [rawEmptyLabel] = [] ∧
    subtotalFromItems (normalizedItems [rawEmptyLabel]) = 5 := by
  have hn : normalizedItems [rawEmptyLabel] = [⟨"Item 1", 1, 5⟩] := rfl
  refine ⟨hn, rfl, ?_⟩
  rw [hn]; norm_num [subtotalFromItems, List.foldl]

/-- C2 (amended): normalization maps each item to service_name (with empty
or missing labels defaulted to "Item (idx+1)"), quantity (default 1) and
unit_price (default 0), and drops exactly those items whose normalized
quantity is non-positive; every surviving item has a non-empty label. -/
theorem normalizedItems_drop_only_nonpositive_qty (items : List RawItem) :
    normalizedItems items =
      ((items.enum).map (fun p => normalizeItem p.1 p.2)).filter
        (fun i => decide (0 < i.quantity)) ∧
    (normalizedItems items).all (fun i => i.service_name != "") = true := by
  constructor
  · unfold normalizedItems
    apply List.filter_congr
    intro i hi
    obtain ⟨p, _, rfl⟩ := List.mem_map.mp hi
    simp [normalizeItem_label_ne_empty p.1 p.2]
  · rw [List.all_eq_true]
    intro i hi
    unfold normalizedItems at hi
    have hmem := List.mem_of_mem_filter hi
    obtain ⟨p, _, rfl⟩ := List.mem_map.mp hmem
    simp [normalizeItem_label_ne_empty p.1 p.2]

/-- C3: the stored total_amount equals the caller-supplied total whenever it
parses to a positive number and otherwise max 0 (subtotal - discount), and
the scenario (items [(2, 10)], percent 10, no caller total) stores subtotal
20, discount_amount 2, total_amount 18. -/
theorem invoice_total_prefers_positive_caller_total :
    (∀ req : InvoiceRequest,
      (calcInvoice req).total_amount =
        if 0 < toNumber req.total_amount then toNumber req.total_amount
        else max 0 ((calcInvoice req).subtotal - (calcInvoice req).discount_amount)) ∧
    calcInvoice reqScenario =
      { subtotal := 20, discount_type := "percent", discount_value := 10
        discount_amount := 2, total_amount := 18 } := by
  constructor
  · intro req; rfl
  · have hS : subtotalFromItems (normalizedItems reqScenario.items) = 20 := by
      rw [show normalizedItems reqScenario.items = [⟨"Item 1", 2, 10⟩] from rfl]
      norm_num [subtotalFromItems, List.foldl]
    simp only [calcInvoice]
    rw [hS, show strOr reqScenario.discount_type "none" = "percent" from rfl,
      show toNumber reqScenario.discount_value = 10 from rfl,
      show toNumber reqScenario.total_amount = 0 from rfl,
      show toNumber reqScenario.subtotal = 0 from rfl]
    norm_num

/-- C4: for every invoice create or update request, whatever the sign or
magnitude of the discount value, the stored discount_amount is at most the
stored subtotal and the stored total_amount is non-negative. -/
theorem invoice_discount_clamped_total_nonneg (req : InvoiceRequest) :
    (calcInvoice req).discount_amount ≤ (calcInvoice req).subtotal ∧
    0 ≤ (calcInvoice req).total_amount := by
  dsimp only [calcInvoice]
  constructor
  · split_ifs <;>
      first
        | exact le_rfl
        | exact le_of_not_lt (by assumption)
  · split_ifs <;>
      first
        | exact le_of_lt (by assumption)
        | exact le_max_left 0 _

/-- An invoice_items row. -/
structure StoredItem where
  invoice_id : Nat
  service_name : String
  quantity : ℚ
  unit_price : ℚ
deriving DecidableEq, Repr

/-- An invoices row (the columns touched by the invoice handlers). -/
structure InvoiceRow where
  id : Nat
  patient_id : Option Nat
  status : Option String
  diagnostic : Option String
  subtotal : ℚ
  discount_type : String
  discount_value : ℚ
  discount_amount : ℚ
  total_amount : ℚ
deriving DecidableEq, Repr

/-- The invoice-related database state. -/
structure InvoiceDB where
  invoices : List InvoiceRow
  invoice_items : List StoredItem
deriving DecidableEq, Repr

/-- The invoices-row update of PATCH /api/invoices/:id (server.js lines
707-719): the computed monetary fields are always written; patientId,
status and diagnostic are written only when present in the request
(undefined keys are dropped from the payload, leaving the column as it
was). -/
def updateInvoiceRow (req : InvoiceRequest) (f : InvoiceFields) (r : InvoiceRow) : InvoiceRow :=
  { r with
    patient_id := match req.patientId with | some p => some p | none => r.patient_id
    status := match req.status with | some s => some s | none => r.status
    diagnostic := match req.diagnostic with | some d => some d | none => r.diagnostic
    subtotal := f.subtotal
    discount_type := f.discount_type
    discount_value := f.discount_value
    discount_amount := f.discount_amount
    total_amount := f.total_amount }

/-- Injected failure outcomes for the three database writes issued by the
invoice update handler. -/
structure FailurePlan where
  deleteItemsFails : Bool
  updateInvoiceFails : Bool
  insertItemsFails : Bool
deriving DecidableEq, Repr

/-- The invoice_items rows built from the normalized items (server.js lines
349-354 and 727-732). -/
def itemsToInsert (invoiceId : Nat) (items : List RawItem) : List StoredItem :=
  (normalizedItems items).map
    (fun i => ⟨invoiceId, i.service_name, i.quantity, i.unit_price⟩)

/-- PATCH /api/invoices/:id (server.js lines 652-744) as a state
transformer returning (HTTP status, database state).  The handler performs
three sequential writes: delete the old items of the invoice, update the
invoice row with the recomputed fields, insert the new items.  A failing
write makes the handler return 500 at once; earlier writes are not undone
(there is no transaction). -/
def patchInvoiceHandler (fp : FailurePlan) (db : InvoiceDB) (id : Nat)
    (req : InvoiceRequest) : Nat × InvoiceDB :=
  if fp.deleteItemsFails then (500, db)
  else
    let db1 : InvoiceDB :=
      { db with invoice_items := db.invoice_items.filter (fun it => it.invoice_id != id) }
    if fp.updateInvoiceFails then (500, db1)
    else
      let f := calcInvoice req
      let db2 : InvoiceDB :=
        { db1 with invoices :=
            db1.invoices.map (fun r => if r.id = id then updateInvoiceRow req f r else r) }
      if fp.insertItemsFails then (500, db2)
      else
        (200, { db2 with invoice_items := db2.invoice_items ++ itemsToInsert id req.items })

/-- C5: the invoice update is not atomic.  When the final item-insertion
write fails (and the two earlier writes succeeded), the handler answers 500
while the database keeps the old items of the invoice deleted and the
invoice row already rewritten with the newly computed fields: nothing is
rolled back. -/
theorem patch_invoice_insert_failure_state (db : InvoiceDB) (id : Nat)
    (req : InvoiceRequest) :
    (patchInvoiceHandler ⟨false, false, true⟩ db id req).1 = 500 ∧
    (patchInvoiceHandler ⟨false, false, true⟩ db id req).2.invoice_items =
      db.invoice_items.filter (fun it => it.invoice_id != id) ∧
    (patchInvoiceHandler ⟨false, false, true⟩ db id req).2.invoices =
      db.invoices.map
        (fun r => if r.id = id then updateInvoiceRow req (calcInvoice req) r else r) :=
  ⟨rfl, rfl, rfl⟩

/-- The paid-invoice revenue reduce of the dashboard handler (server.js
lines 232-233): sum total_amount over the fetched rows, a missing amount
counting as 0. -/
def sumRevenue (rows : List (Option ℚ)) : ℚ :=
  rows.foldl (fun sum inv => sum + inv.getD 0) 0

/-- revenueTrend (server.js line 236): percentage change when yesterday is
positive, else 100 when today is positive, else 0. -/
def revenueTrend (todaysRevenue yesterdaysRevenue : ℚ) : ℚ :=
  if 0 < yesterdaysRevenue then
    (todaysRevenue - yesterdaysRevenue) / yesterdaysRevenue * 100
  else if 0 < todaysRevenue then 100 else 0

/-- C6: the revenue trend is (today - yesterday) / yesterday times 100 when
the revenue of yesterday is positive, 100 when yesterday is 0 and today is
positive, and 0 when both are 0. -/
theorem revenue_trend_cases (rowsT rowsY : List (Option ℚ)) :
    (0 < sumRevenue rowsY →
      revenueTrend (sumRevenue rowsT) (sumRevenue rowsY) =
        (sumRevenue rowsT - sumRevenue rowsY) / sumRevenue rowsY * 100) ∧
    (sumRevenue rowsY = 0 → 0 < sumRevenue rowsT →
      revenueTrend (sumRevenue rowsT) (sumRevenue rowsY) = 100) ∧
    (sumRevenue rowsY = 0 → sumRevenue rowsT = 0 →
      revenueTrend (sumRevenue rowsT) (sumRevenue rowsY) = 0) := by
  refine ⟨fun hy => ?_, fun hy ht => ?_, fun hy ht => ?_⟩
  · simp only [revenueTrend]
    rw [if_pos hy]
  · simp only [revenueTrend]
    rw [if_neg (by rw [hy]; exact lt_irrefl 0), if_pos ht]
  · simp only [revenueTrend]
    rw [if_neg (by rw [hy]; exact lt_irrefl 0), if_neg (by rw [ht]; exact lt_irrefl 0)]

/-- Witness for C6: concrete revenues hitting the three trend cases. -/
theorem revenue_trend_cases_witness :
    revenueTrend (sumRevenue [some 15]) (sumRevenue [some 10]) = 50 ∧
    revenueTrend (sumRevenue [some 5]) (sumRevenue []) = 100 ∧
    revenueTrend (sumRevenue []) (sumRevenue []) = 0 := by
  have h10 : sumRevenue [some (10:ℚ)] = 10 := by norm_num [sumRevenue, List.foldl]
  have h15 : sumRevenue [some (15:ℚ)] = 15 := by norm_num [sumRevenue, List.foldl]
  have h5 : sumRevenue [some (5:ℚ)] = 5 := by norm_num [sumRevenue, List.foldl]
  have h0 : sumRevenue ([] : List (Option ℚ)) = 0 := rfl
  refine ⟨?_, ?_, ?_⟩
  · have h := (revenue_trend_cases [some 15] [some 10]).1 (by rw [h10]; norm_num)
    rw [h, h10, h15]
    norm_num
  · exact (revenue_trend_cases [some 5] []).2.1 h0 (by rw [h5]; norm_num)
  · exact (revenue_trend_cases [] []).2.2 h0 h0

/-- A calendar date as the age-demographics block reads it from a Date
object (getFullYear, getMonth, getDate).  Months are numbered 1 to 12 here;
the code only uses differences and comparisons of month numbers, which are
unchanged by the shift from the 0-based getMonth. -/
structure SDate where
  year : Int
  month : Int
  day : Int
deriving DecidableEq, Repr

/-- The age computation of the age-demographics block (server.js lines
245-250): calendar year difference, decremented when the month difference
is negative, or zero with the day of the month not yet reached. -/
def computeAge (today birth : SDate) : Int :=
  if today.month - birth.month < 0 ∨
      (today.month - birth.month = 0 ∧ today.day < birth.day)
  then today.year - birth.year - 1
  else today.year - birth.year

/-- The four age buckets of the dashboard demographics. -/
inductive AgeBucket
  | under18
  | from18to30
  | from31to50
  | over50
deriving DecidableEq, Repr

/-- The bucketing chain of server.js lines 252-255. -/
def ageBucket (age : Int) : AgeBucket :=
  if age < 18 then .under18
  else if 18 ≤ age ∧ age ≤ 30 then .from18to30
  else if 31 ≤ age ∧ age ≤ 50 then .from31to50
  else .over50

/-- The ageGroups accumulation of server.js lines 241-257: count each
non-null birth date into its bucket (under18, 18-30, 31-50, over50). -/
def ageGroups (today : SDate) (dobs : List (Option SDate)) : Nat × Nat × Nat × Nat :=
  dobs.foldl
    (fun g dob =>
      match dob with
      | none => g
      | some b =>
        match ageBucket (computeAge today b) with
        | .under18 => (g.1 + 1, g.2.1, g.2.2.1, g.2.2.2)
        | .from18to30 => (g.1, g.2.1 + 1, g.2.2.1, g.2.2.2)
        | .from31to50 => (g.1, g.2.1, g.2.2.1 + 1, g.2.2.2)
        | .over50 => (g.1, g.2.1, g.2.2.1, g.2.2.2 + 1))
    (0, 0, 0, 0)

/-- Gregorian leap year. -/
def isLeap (y : Int) : Bool :=
  (y % 4 = 0 && y % 100 != 0) || y % 400 = 0

/-- Number of days of a Gregorian month. -/
def daysInMonth (y m : Int) : Int :=
  if m = 2 then (if isLeap y then 29 else 28)
  else if m = 4 ∨ m = 6 ∨ m = 9 ∨ m = 11 then 30
  else 31

/-- A calendar-valid date. -/
def ValidDate (d : SDate) : Prop :=
  1 ≤ d.month ∧ d.month ≤ 12 ∧ 1 ≤ d.day ∧ d.day ≤ daysInMonth d.year d.month

instance (d : SDate) : Decidable (ValidDate d) :=
  inferInstanceAs (Decidable (1 ≤ d.month ∧ d.month ≤ 12 ∧ 1 ≤ d.day ∧
    d.day ≤ daysInMonth d.year d.month))

/-- The calendar day after d. -/
def nextDay (d : SDate) : SDate :=
  if d.day < daysInMonth d.year d.month then ⟨d.year, d.month, d.day + 1⟩
  else if d.month < 12 then ⟨d.year, d.month + 1, 1⟩
  else ⟨d.year + 1, 1, 1⟩

/-- C7: the age is the calendar-year difference, decremented exactly when
the birthday has not yet occurred this year; the buckets are under 18,
18-30, 31-50 and over 50; a birth date exactly 18 years before the current
date lands in 18-30; a birth date whose 18th birthday is tomorrow (one day
short of 18) lands in under 18. -/
theorem age_bucketing_spec :
    (∀ today birth : SDate,
      computeAge today birth =
        today.year - birth.year -
          (if today.month < birth.month ∨
              (today.month = birth.month ∧ today.day < birth.day) then 1 else 0)) ∧
    (∀ a : Int,
      (ageBucket a = .under18 ↔ a < 18) ∧
      (ageBucket a = .from18to30 ↔ 18 ≤ a ∧ a ≤ 30) ∧
      (ageBucket a = .from31to50 ↔ 31 ≤ a ∧ a ≤ 50) ∧
      (ageBucket a = .over50 ↔ 50 < a)) ∧
    (∀ today : SDate,
      ageBucket (computeAge today ⟨today.year - 18, today.month, today.day⟩) =
        .from18to30) ∧
    (∀ today birth : SDate, ValidDate today →
      nextDay today = ⟨birth.year + 18, birth.month, birth.day⟩ →
      ageBucket (computeAge today birth) = .under18) := by
  refine ⟨?_, ?_, ?_, ?_⟩
  · intro t b
    simp only [computeAge]
    split_ifs <;> omega
  · intro a
    simp only [ageBucket]
    refine ⟨?_, ?_, ?_, ?_⟩ <;> (split_ifs <;> simp <;> omega)
  · intro t
    have hage : computeAge t ⟨t.year - 18, t.month, t.day⟩ = 18 := by
      simp only [computeAge]
      split_ifs with h <;> omega
    rw [hage]
    decide
  · intro t b hv hn
    obtain ⟨hm1, hm2, hd1, hd2⟩ := hv
    unfold nextDay at hn
    split_ifs at hn with h1 h2 <;>
      (simp only [SDate.mk.injEq] at hn
       obtain ⟨hy, hm, hd⟩ := hn
       have hage : computeAge t b = 17 := by
         simp only [computeAge]
         split_ifs with h <;> omega
       rw [hage]
       decide)

/-- Witness for C7: on 2026-10-12, a patient born 2008-10-13 (18th birthday
tomorrow) is counted under 18 and a patient born 2008-10-12 (18 today) is
counted in 18-30. -/
theorem age_bucketing_spec_witness :
    ValidDate ⟨2026, 10, 12⟩ ∧
    ageBucket (computeAge ⟨2026, 10, 12⟩ ⟨2008, 10, 13⟩) = .under18 ∧
    ageBucket (computeAge ⟨2026, 10, 12⟩ ⟨2008, 10, 12⟩) = .from18to30 := by
  refine ⟨by decide, ?_, ?_⟩
  · exact age_bucketing_spec.2.2.2 ⟨2026, 10, 12⟩ ⟨2008, 10, 13⟩ (by decide) (by decide)
  · have h := age_bucketing_spec.2.2.1 ⟨2026, 10, 12⟩
    norm_num at h
    exact h

/-- The settled result of one supabase query: either rows (or a count), or
a query error.  supabase-js returns query errors inside the result object
(data null, error set); the promise itself resolves, so Promise.all does
not reject and the try/catch of the handler does not fire. -/
inductive QueryRes (α : Type)
  | ok (data : α)
  | err
deriving DecidableEq, Repr

/-- Reading res.data || [] : a failed read contributes the empty list. -/
def dataOr {α : Type} : QueryRes (List α) → List α
  | .ok l => l
  | .err => []

/-- Reading res.count || 0 : a failed count contributes 0. -/
def countOr : QueryRes Nat → Nat
  | .ok n => n
  | .err => 0

/-- Whether the result carries an error. -/
def QueryRes.isErr {α : Type} : QueryRes α → Bool
  | .ok _ => false
  | .err => true

/-- A row of the todaysSchedule query (start_time, title, status, staff
name). -/
structure ScheduleRow where
  start_time : String
  title : String
  status : String
  staffName : Option String
deriving DecidableEq, Repr

/-- The nine concurrently fetched results consumed by
GET /api/dashboard/advanced-stats (server.js lines 215-229). -/
structure AdvancedStatsInput where
  revenueToday : QueryRes (List (Option ℚ))
  appointmentsToday : QueryRes Nat
  newPatientsToday : QueryRes Nat
  cancellationsToday : QueryRes Nat
  todaysSchedule : QueryRes (List ScheduleRow)
  patientDobs : QueryRes (List (Option SDate))
  weeklyAppointments : QueryRes (List (String × Nat))
  revenueYesterday : QueryRes (List (Option ℚ))
  appointmentsYesterday : QueryRes Nat
deriving DecidableEq, Repr

/-- The stats object assembled by the handler (server.js lines 260-267).
trends.revenue is reported after toFixed(0); the rounding to a string is
not modelled, the trend is kept as the computed rational. -/
structure AdvancedStats where
  todaysRevenue : ℚ
  appointmentsToday : Nat
  newPatientsToday : Nat
  cancellationsToday : Nat
  revenueTrendPct : ℚ
  appointmentTrend : Int
  newPatientsTrend : Nat
  todaysSchedule : List ScheduleRow
  ageDemographics : List Nat
  weeklyAppointments : List (String × Nat)
deriving DecidableEq, Repr

/-- GET /api/dashboard/advanced-stats (server.js lines 201-276) given the
nine settled query results: none of the results is checked for an error;
every read is defaulted with data || [] or count || 0, and the handler
answers 200 with the assembled stats. -/
def advancedStatsHandler (today : SDate) (inp : AdvancedStatsInput) :
    Nat × Option AdvancedStats :=
  let todaysRevenue := sumRevenue (dataOr inp.revenueToday)
  let yesterdaysRevenue := sumRevenue (dataOr inp.revenueYesterday)
  let appointmentsToday := countOr inp.appointmentsToday
  let appointmentsYesterday := countOr inp.appointmentsYesterday
  let newPatientsToday := countOr inp.newPatientsToday
  let g := ageGroups today (dataOr inp.patientDobs)
  (200, some
    { todaysRevenue := todaysRevenue
      appointmentsToday := appointmentsToday
      newPatientsToday := newPatientsToday
      cancellationsToday := countOr inp.cancellationsToday
      revenueTrendPct := revenueTrend todaysRevenue yesterdaysRevenue
      appointmentTrend := (appointmentsToday : Int) - (appointmentsYesterday : Int)
      newPatientsTrend := newPatientsToday
      todaysSchedule := dataOr inp.todaysSchedule
      ageDemographics := [g.1, g.2.1, g.2.2.1, g.2.2.2]
      weeklyAppointments := dataOr inp.weeklyAppointments })

/-- An appointment row of the portal dashboard, with start_time as an
epoch instant. -/
structure PAppointment where
  start_time : Int
  status : String
  staffName : Option String
deriving DecidableEq, Repr

/-- The three concurrently fetched results of GET /api/portal/dashboard
(server.js lines 916-921). -/
structure PortalInput where
  appointments : QueryRes (List PAppointment)
  assignedExercises : QueryRes (List Nat)
  clinicSettings : QueryRes String
deriving DecidableEq, Repr

/-- The portal dashboard payload (server.js lines 932-938). -/
structure PortalData where
  profileId : Nat
  profileName : String
  nextAppointment : Option PAppointment
  appointmentHistory : List PAppointment
  exercises : List Nat
  clinic : Option String
deriving DecidableEq, Repr

/-- GET /api/portal/dashboard (server.js lines 900-946) after the patient
profile fetch: when any of the three reads carries an error the handler
answers 500 with no data; otherwise it splits the appointments around now
(upcoming sorted ascending by start_time) and answers 200. -/
def portalDashboardHandler (now : Int) (profileId : Nat) (profileName : String)
    (inp : PortalInput) : Nat × Option PortalData :=
  if inp.appointments.isErr || inp.assignedExercises.isErr
      || inp.clinicSettings.isErr then
    (500, none)
  else
    let allAppointments := dataOr inp.appointments
    let upcoming :=
      (allAppointments.filter (fun a => decide (now ≤ a.start_time))).mergeSort
        (fun a b => decide (a.start_time ≤ b.start_time))
    let past := allAppointments.filter (fun a => decide (a.start_time < now))
    (200, some
      { profileId := profileId
        profileName := profileName
        nextAppointment := upcoming.head?
        appointmentHistory := past
        exercises := dataOr inp.assignedExercises
        clinic := match inp.clinicSettings with | .ok s => some s | .err => none })

/-- An advanced-stats input whose revenue read failed while all other
reads succeeded (with empty data). -/
def advInputOneErr : AdvancedStatsInput :=
  { revenueToday := .err
    appointmentsToday := .ok 0
    newPatientsToday := .ok 0
    cancellationsToday := .ok 0
    todaysSchedule := .ok []
    patientDobs := .ok []
    weeklyAppointments := .ok []
    revenueYesterday := .ok []
    appointmentsYesterday := .ok 0 }

/-- A portal input whose appointments read failed. -/
def portalInputErr : PortalInput :=
  { appointments := .err, assignedExercises := .ok [], clinicSettings := .ok "clinic" }

/-- C8 counterexample: with the revenue read failed, the advanced-stats
handler still answers 200 and returns an aggregation (built from defaulted
values), so a failing underlying read is not fatal for this handler. -/
theorem advanced_stats_error_not_fatal_cex :
    advInputOneErr.revenueToday = QueryRes.err ∧
    (advancedStatsHandler ⟨2026, 10, 12⟩ advInputOneErr).1 = 200 ∧
    (advancedStatsHandler ⟨2026, 10, 12⟩ advInputOneErr).2.isSome = true :=
  ⟨rfl, rfl, rfl⟩

/-- C8 (amended): the portal dashboard handler fails the whole request
with 500 and no data when any of its three reads errors, while the
advanced-stats handler never fails on a read error: it always answers 200
with an aggregation in which failed reads are replaced by empty or zero
defaults. -/
theorem dashboard_error_handling :
    (∀ (now : Int) (profileId : Nat) (profileName : String) (inp : PortalInput),
      (inp.appointments.isErr || inp.assignedExercises.isErr
        || inp.clinicSettings.isErr) = true →
      portalDashboardHandler now profileId profileName inp = (500, none)) ∧
    (∀ (today : SDate) (inp : AdvancedStatsInput),
      (advancedStatsHandler today inp).1 = 200 ∧
      (advancedStatsHandler today inp).2.isSome = true) := by
  constructor
  · intro now profileId profileName inp h
    unfold portalDashboardHandler
    rw [if_pos h]
  · intro today inp
    exact ⟨rfl, rfl⟩

/-- Witness for C8 (amended): the portal handler rejects a failed
appointments read with 500, and the advanced-stats handler answers 200
even with a failed revenue read. -/
theorem dashboard_error_handling_witness :
    portalDashboardHandler 0 1 "Pat" portalInputErr = (500, none) ∧
    (advancedStatsHandler ⟨2026, 1, 1⟩ advInputOneErr).1 = 200 ∧
    (advancedStatsHandler ⟨2026, 1, 1⟩ advInputOneErr).2.isSome = true :=
  ⟨dashboard_error_handling.1 0 1 "Pat" portalInputErr rfl,
   (dashboard_error_handling.2 ⟨2026, 1, 1⟩ advInputOneErr).1,
   (dashboard_error_handling.2 ⟨2026, 1, 1⟩ advInputOneErr).2⟩

/-- Outcome of the patient-delete database call. -/
inductive DeleteOutcome
  | ok
  | fkViolation
  | otherError
deriving DecidableEq, Repr

/-- The tables relevant to deleting a patient: patient ids and the patient
references held by invoices and appointments rows. -/
structure ClinicDB where
  patients : List Nat
  invoicePatients : List Nat
  appointmentPatients : List Nat
deriving DecidableEq, Repr

/-- Whether some invoices or appointments row references the patient. -/
def patientReferenced (db : ClinicDB) (id : Nat) : Bool :=
  db.invoicePatients.contains id || db.appointmentPatients.contains id

/-- Delete semantics of the external relational database (foreign keys
without cascade, as in the supabase migrations): deleting a patient still
referenced by another row violates the constraint and is reported with
error code 23503 leaving the state unchanged; an unrelated database error
(dbError) also leaves the state unchanged; otherwise the row is removed. -/
def dbDeletePatient (db : ClinicDB) (id : Nat) (dbError : Bool) :
    DeleteOutcome × ClinicDB :=
  if dbError then (.otherError, db)
  else if patientReferenced db id then (.fkViolation, db)
  else (.ok, { db with patients := db.patients.filter (fun p => p != id) })

/-- DELETE /api/patients/:id (server.js lines 190-198): error code 23503
becomes 409 with success false, any other error 500 with success false,
otherwise 200 with success true.  Returns ((status, success flag), state). -/
def deletePatientHandler (db : ClinicDB) (id : Nat) (dbError : Bool) :
    (Nat × Bool) × ClinicDB :=
  match dbDeletePatient db id dbError with
  | (.fkViolation, db2) => ((409, false), db2)
  | (.otherError, db2) => ((500, false), db2)
  | (.ok, db2) => ((200, true), db2)

/-- C9: deleting a patient still referenced by an invoices or appointments
row yields 409 with success false and an unchanged database, and any other
database error yields 500 with success false and an unchanged database. -/
theorem delete_patient_conflict_handling :
    (∀ (db : ClinicDB) (id : Nat), patientReferenced db id = true →
      deletePatientHandler db id false = ((409, false), db)) ∧
    (∀ (db : ClinicDB) (id : Nat),
      deletePatientHandler db id true = ((500, false), db)) := by
  constructor
  · intro db id h
    simp [deletePatientHandler, dbDeletePatient, h]
  · intro db id
    rfl

/-- Witness for C9: in a database where patient 1 is referenced by an
invoice, deleting patient 1 answers 409 and changes nothing, and a failing
delete of patient 2 answers 500 and changes nothing. -/
theorem delete_patient_conflict_handling_witness :
    patientReferenced ⟨[1, 2], [1], []⟩ 1 = true ∧
    deletePatientHandler ⟨[1, 2], [1], []⟩ 1 false = ((409, false), ⟨[1, 2], [1], []⟩) ∧
    deletePatientHandler ⟨[1, 2], [1], []⟩ 2 true = ((500, false), ⟨[1, 2], [1], []⟩) :=
  ⟨rfl, delete_patient_conflict_handling.1 ⟨[1, 2], [1], []⟩ 1 rfl,
   delete_patient_conflict_handling.2 ⟨[1, 2], [1], []⟩ 2⟩

/-- An assigned_exercises row (id and completion-date list; the column is
nullable). -/
structure AssignedRow where
  id : Nat
  completed_dates : Option (List String)
deriving DecidableEq, Repr

/-- The completed-dates step of the handler (server.js lines 966-970): take
the current list (null counting as empty) and push today when the list does
not already include it. -/
def completeDates (today : String) (current : Option (List String)) : List String :=
  if (current.getD []).contains today then current.getD []
  else current.getD [] ++ [today]

/-- The write-back of the update step: set completed_dates to the new list
on the rows matching the assignment id, leave the others. -/
def markDone (id : Nat) (newDates : List String) (r : AssignedRow) : AssignedRow :=
  if r.id == id then { r with completed_dates := some newDates } else r

/-- PATCH /api/assigned-exercises/:id/complete (server.js lines 949-983):
fetch the assignment row (500 and no change when the fetch fails), extend
its completed_dates with today when absent, and write the list back. -/
def completeExerciseHandler (db : List AssignedRow) (id : Nat) (today : String) :
    Nat × List AssignedRow :=
  match db.find? (fun r => r.id == id) with
  | none => (500, db)
  | some row =>
    (200, db.map (markDone id (completeDates today row.completed_dates)))

/-- Helper: today is in the written-back list. -/
theorem contains_completeDates (today : String) (current : Option (List String)) :
    (completeDates today current).contains today = true := by
  unfold completeDates
  split_ifs with h
  · exact h
  · simp

/-- Helper: rewriting the completed dates twice with the same day changes
nothing the second time. -/
theorem completeDates_stable (today : String) (current : Option (List String)) :
    completeDates today (some (completeDates today current)) = completeDates today current := by
  conv_lhs => rw [completeDates]
  rw [Option.getD_some, if_pos (contains_completeDates today current)]

/-- Helper: the handler result when the row is found. -/
theorem completeExerciseHandler_of_found {db : List AssignedRow} {id : Nat}
    {row : AssignedRow} (today : String)
    (hfind : db.find? (fun r => r.id == id) = some row) :
    completeExerciseHandler db id today =
      (200, db.map (markDone id (completeDates today row.completed_dates))) := by
  unfold completeExerciseHandler
  rw [hfind]

/-- Helper: markDone keeps the id of every row. -/
theorem markDone_id (id : Nat) (nd : List String) (r : AssignedRow) :
    (markDone id nd r).id = r.id := by
  unfold markDone
  split <;> rfl

/-- Helper: the write-back map does not move which row find? returns. -/
theorem find?_update (db : List AssignedRow) (id : Nat) (nd : List String) :
    (db.map (markDone id nd)).find? (fun r => r.id == id) =
      (db.find? (fun r => r.id == id)).map (markDone id nd) := by
  have hp : ((fun r : AssignedRow => r.id == id) ∘ markDone id nd) =
      (fun r : AssignedRow => r.id == id) := by
    funext r
    simp [Function.comp, markDone_id]
  rw [List.find?_map, hp]

/-- C10: completing an exercise is idempotent for a fixed current date:
running the handler twice with the same day leaves exactly the state of
running it once, and the written-back list is always the old list
(null counting as empty) either unchanged or with the day appended, so
every previously recorded date is preserved. -/
theorem complete_exercise_idempotent :
    (∀ (db : List AssignedRow) (id : Nat) (today : String),
      completeExerciseHandler (completeExerciseHandler db id today).2 id today =
        completeExerciseHandler db id today) ∧
    (∀ (today : String) (current : Option (List String)),
      completeDates today current = current.getD [] ∨
      completeDates today current = current.getD [] ++ [today]) := by
  constructor
  · intro db id today
    cases hfind : db.find? (fun r => r.id == id) with
    | none =>
      have h1 : completeExerciseHandler db id today = (500, db) := by
        unfold completeExerciseHandler
        rw [hfind]
      rw [h1]
      exact h1
    | some row =>
      have hrow : (row.id == id) = true :=
        List.find?_some (p := fun r : AssignedRow => r.id == id) hfind
      rw [completeExerciseHandler_of_found today hfind]
      have hrow2 : (db.map (markDone id (completeDates today row.completed_dates))).find?
          (fun r => r.id == id) =
          some (markDone id (completeDates today row.completed_dates) row) := by
        rw [find?_update, hfind]
        rfl
      have hmd : markDone id (completeDates today row.completed_dates) row =
          { row with completed_dates := some (completeDates today row.completed_dates) } := by
        unfold markDone
        rw [if_pos hrow]
      rw [hmd] at hrow2
      dsimp only
      rw [completeExerciseHandler_of_found today hrow2]
      dsimp only
      rw [completeDates_stable, List.map_map]
      refine congrArg (Prod.mk 200) ?_
      apply List.map_congr_left
      intro r _
      by_cases h : (r.id == id) = true <;> simp [Function.comp, markDone, h]
  · intro today current
    unfold completeDates
    split_ifs with h
    · exact Or.inl rfl
    · exact Or.inr rfl

end PhysioCare
